import Mathlib

/-!
Shallow embedding of `src/lua_interpreter.cxx` (repository cleoold/lua_interpreter_cpp).

The file embeds the two collaborating components of the library — the interpreter
state owner (`lua_interpreter::impl`) and the scoped table handle
(`table_handle::impl`) — together with the slice of the external Lua 5.3+ C API
that the source calls.  The Lua virtual machine itself is an external collaborator
(not code of this repository); its primitives (`lua_getglobal`, `lua_getfield`,
`lua_geti`, `lua_len`, `lua_isinteger`, `lua_isnumber`, `lua_isstring`,
`lua_isboolean`, `lua_istable`, `lua_type`, the conversion functions, `lua_gettop`,
`lua_pop`, `lua_remove`, `luaL_loadstring`/`lua_pcall`) are modelled after their
documented reference-manual semantics.  The operand stack is a `List` whose head
is the stack top; Lua's 1-based bottom-up indices are kept.

Lua numbers (since 5.3) come in two subtypes: integers and floats.  A float is an
IEEE double; the embedding keeps only the one attribute of a float the source ever
inspects through `lua_isinteger` and that the specification talks about, namely
whether its value is integral.  No claim depends on float arithmetic or on the
decimal rendering of floats.
-/

namespace LuaModel

/-- A Lua 5.3+ number: either the integer subtype (carrying its value) or the
float subtype (an IEEE double, abstracted to whether its value is integral). -/
inductive LNum where
  | int (n : Int)
  | flt (isIntegral : Bool)
deriving DecidableEq, Repr

mutual
/-- A Lua value as visible through the C API slice the source uses. -/
inductive LVal where
  | nil
  | num (n : LNum)
  | str (s : String)
  | boolean (b : Bool)
  | table (t : LTable)
  | other

/-- A Lua table: string-keyed fields and integer-keyed fields
(the associative/array hybrid aggregate). -/
inductive LTable where
  | mk (sfields : List (String × LVal)) (ifields : List (Int × LVal))
end

/-- String-keyed fields of a table. -/
def LTable.sfields : LTable → List (String × LVal)
  | .mk s _ => s

/-- Integer-keyed fields of a table. -/
def LTable.ifields : LTable → List (Int × LVal)
  | .mk _ i => i

/-- Lua's numeral conversion of strings, as used by `lua_isnumber` /
`lua_tonumberx` ("a string convertible to a number").  The embedding models the
integer numerals, which is the only part any theorem exercises. -/
def strToNum (s : String) : Option Int := s.toInt?

/-- `lua_isinteger`: true iff the value is a number represented as an integer
(the integer subtype; an integral-valued float does not qualify). -/
def lua_isinteger : LVal → Bool
  | .num (.int _) => true
  | _ => false

/-- `lua_isnumber`: true iff the value is a number or a string convertible to a
number. -/
def lua_isnumber : LVal → Bool
  | .num _ => true
  | .str s => (strToNum s).isSome
  | _ => false

/-- `lua_isstring`: true iff the value is a string or a number (numbers are
always convertible to strings). -/
def lua_isstring : LVal → Bool
  | .str _ => true
  | .num _ => true
  | _ => false

/-- `lua_isboolean`: true iff the value is a boolean. -/
def lua_isboolean : LVal → Bool
  | .boolean _ => true
  | _ => false

/-- `lua_istable`: true iff the value is a table (no coercion). -/
def lua_istable : LVal → Bool
  | .table _ => true
  | _ => false

/-- `lua_tointegerx`: the integer value (only called by the source after
`lua_isinteger` succeeded; other cases yield the API's 0 default). -/
def lua_tointegerx : LVal → Int
  | .num (.int n) => n
  | _ => 0

/-- `lua_tonumberx`: convert to a number (the source only calls it after
`lua_isnumber` succeeded). -/
def lua_tonumberx : LVal → LNum
  | .num n => n
  | .str s => match strToNum s with
              | some n => .int n
              | none => .flt false
  | _ => .int 0

/-- `lua_tolstring`: the string value, or the decimal rendering of a number
(the source only calls it after `lua_isstring` succeeded; the rendering of a
float is not modelled and no claim depends on it). -/
def lua_tolstring : LVal → String
  | .str s => s
  | .num (.int n) => toString n
  | .num (.flt _) => "(float)"
  | _ => ""

/-- `lua_toboolean`: everything except nil and false is true. -/
def lua_toboolean : LVal → Bool
  | .nil => false
  | .boolean b => b
  | _ => true

/-- Lookup in an association list of globals / string fields; an absent key
surfaces as nil, as in Lua. -/
def lookupStr (l : List (String × LVal)) (k : String) : LVal :=
  match l.lookup k with
  | some v => v
  | none => .nil

/-- Lookup among the integer-keyed fields; an absent key surfaces as nil. -/
def lookupInt (l : List (Int × LVal)) (k : Int) : LVal :=
  match l.lookup k with
  | some v => v
  | none => .nil

/-- The border computed by Lua's length operator `#` on a table whose array part
is a sequence: the greatest `n` such that keys `1..n` are all present and
`n+1` is absent (computed with fuel bounded by the number of integer fields). -/
def tableBorder (l : List (Int × LVal)) : Int :=
  go l.length 0
where
  go : Nat → Int → Int
    | 0, n => n
    | fuel+1, n => if (l.lookup (n+1)).isSome then go fuel (n+1) else n

/-- `lua_len` applied to a table (no `__len` metamethod in scope): the border of
its array part. -/
def lua_len_val : LVal → LVal
  | .table t => .num (.int (tableBorder t.ifields))
  | _ => .nil

/-- The state of one Lua virtual machine: the global namespace and the operand
stack.  The stack list's head is the stack top; Lua's positive indices count
1-based from the bottom, so the value at index `i` sits at list position
`length - i` from the head. -/
structure LuaState where
  globals : List (String × LVal)
  stack : List LVal

/-- `lua_gettop`: the number of elements on the stack (= the index of the top). -/
def LuaState.gettop (st : LuaState) : Nat := st.stack.length

/-- Push one value on the stack. -/
def LuaState.push (st : LuaState) (v : LVal) : LuaState :=
  { st with stack := v :: st.stack }

/-- `lua_pop(L, 1)`: remove the top element. -/
def LuaState.pop1 (st : LuaState) : LuaState :=
  { st with stack := st.stack.tail }

/-- The value at stack index `-1` (the top). -/
def LuaState.top (st : LuaState) : LVal := st.stack.headD .nil

/-- The value at positive stack index `i` (1-based from the bottom). -/
def LuaState.at (st : LuaState) (i : Nat) : LVal :=
  (st.stack.get? (st.stack.length - i)).getD .nil

/-- `lua_remove(L, i)`: remove the element at positive index `i`, shifting the
elements above it down. -/
def LuaState.removeAt (st : LuaState) (i : Nat) : LuaState :=
  { st with stack := st.stack.take (st.stack.length - i) ++ st.stack.drop (st.stack.length - i + 1) }

/-- The value `t[name]` for the table `t` at stack index `tidx` (nil when the
slot does not hold a table; the source only reads fields of resident tables). -/
def LuaState.fieldAt (st : LuaState) (tidx : Nat) (name : String) : LVal :=
  match st.at tidx with
  | .table t => lookupStr t.sfields name
  | _ => .nil

/-- The value `t[i]` for the table `t` at stack index `tidx`. -/
def LuaState.indexAt (st : LuaState) (tidx : Nat) (i : Int) : LVal :=
  match st.at tidx with
  | .table t => lookupInt t.ifields i
  | _ => .nil

/-- `lua_getfield(L, tidx, name)`: push `t[name]` where `t` is the value at
index `tidx`. -/
def LuaState.getfield (st : LuaState) (tidx : Nat) (name : String) : LuaState :=
  st.push (st.fieldAt tidx name)

/-- `lua_geti(L, tidx, i)`: push `t[i]` where `t` is the value at index `tidx`. -/
def LuaState.geti (st : LuaState) (tidx : Nat) (i : Int) : LuaState :=
  st.push (st.indexAt tidx i)

/-- `lua_getglobal(L, name)`: push the named global (nil when absent). -/
def LuaState.getglobal (st : LuaState) (name : String) : LuaState :=
  st.push (lookupStr st.globals name)

/-- `lua_len(L, tidx)`: push the length of the value at index `tidx`. -/
def LuaState.pushlen (st : LuaState) (tidx : Nat) : LuaState :=
  st.push (lua_len_val (st.at tidx))

end LuaModel

namespace luai

open LuaModel

/-- The `types` enumeration of the library (`luai::types`, declared in the
header and used throughout `src/lua_interpreter.cxx`): the Typed Value Kinds
{integer, number, string, boolean, table, script type, nil, other}. -/
inductive types where
  | INT | NUM | STR | BOOL | TABLE | LTYPE | NIL | OTHER
deriving DecidableEq, Repr

/-- `luai::luastate_error`: the one exception class the source throws, carrying
a message string. -/
structure luastate_error where
  msg : String
deriving DecidableEq, Repr

/-- The error thrown by `protect_indexing` (line 173):
`luastate_error{"Malformed Lua stack indexing"}`. -/
def corruptedErr : luastate_error := ⟨"Malformed Lua stack indexing"⟩

/-- The error thrown on a failed type check in `get_what_impl` (line 76) and
`push_table` (line 150): `"variable/field [" + key + "] is not " + throwmsg`. -/
def mismatchErr (keyStr : String) (throwmsg : String) : luastate_error :=
  ⟨"variable/field [" ++ keyStr ++ "] is not " ++ throwmsg⟩

/-- `lua_interpreter::impl::protect_indexing` (lines 171-174): fail with the
corrupted-stack error unless the current stack depth reaches `idx`. -/
def protect_indexing (st : LuaState) (idx : Nat) : Except luastate_error Unit :=
  if st.gettop ≥ idx then .ok () else .error corruptedErr

/-- `get_by_key<var_where::GLOBAL>` (lines 183-186): push the named global;
never fails. -/
def get_by_key_global (name : String) (st : LuaState) : Except luastate_error LuaState :=
  .ok (st.getglobal name)

/-- `get_by_key<var_where::TABLE>` (lines 189-193): guard the table's index,
then push the string-keyed field. -/
def get_by_key_table (name : String) (tidx : Nat) (st : LuaState) :
    Except luastate_error LuaState :=
  match protect_indexing st tidx with
  | .error e => .error e
  | .ok _ => .ok (st.getfield tidx name)

/-- `get_by_key<var_where::TABLE_INDEX>` (lines 196-200): guard the table's
index, then push the integer-keyed element. -/
def get_by_key_index (i : Int) (tidx : Nat) (st : LuaState) :
    Except luastate_error LuaState :=
  match protect_indexing st tidx with
  | .error e => .error e
  | .ok _ => .ok (st.geti tidx i)

/-- `get_by_key<var_where::FUNC1>` (lines 204-208) instantiated at the one
callback the source passes, `lua_len` (line 167): guard the table's index, then
invoke the length operator, which pushes one value. -/
def get_by_key_func1 (tidx : Nat) (st : LuaState) : Except luastate_error LuaState :=
  match protect_indexing st tidx with
  | .error e => .error e
  | .ok _ => .ok (st.pushlen tidx)

/-- `lua_interpreter::impl::get_what_impl` (lines 71-81): push the keyed value,
check it, and either convert-and-pop or pop-and-throw.  On an error thrown by
`get_by_key` the state is unchanged (nothing was pushed). -/
def get_what_impl {R : Type} (getby : LuaState → Except luastate_error LuaState)
    (keyStr : String) (checkfunc : LVal → Bool) (cvrtfunc : LVal → R)
    (throwmsg : String) (st : LuaState) : Except luastate_error R × LuaState :=
  match getby st with
  | .error e => (.error e, st)
  | .ok st1 =>
      if checkfunc st1.top then (.ok (cvrtfunc st1.top), st1.pop1)
      else (.error (mismatchErr keyStr throwmsg), st1.pop1)

/-- `get_type_impl` (lines 118-135): push the keyed value, map its dynamic type
through the conditional chain on `lua_type`, refine NUM to INT when
`lua_isinteger` holds, pop, and return the kind. -/
def get_type_impl (getby : LuaState → Except luastate_error LuaState)
    (st : LuaState) : Except luastate_error types × LuaState :=
  match getby st with
  | .error e => (.error e, st)
  | .ok st1 =>
      let v := st1.top
      let res : types :=
        match v with
        | .num _ => .NUM
        | .str _ => .STR
        | .boolean _ => .BOOL
        | .table _ => .TABLE
        | .nil => .NIL
        | .other => .OTHER
      let res := if res = .NUM ∧ lua_isinteger v then .INT else res
      (.ok res, st1.pop1)

/-- `lua_interpreter::impl::push_table` (lines 144-152): push the keyed value
and verify it is a table; on mismatch pop it and throw.  On success the pushed
slot stays resident (net +1). -/
def push_table (getby : LuaState → Except luastate_error LuaState)
    (keyStr : String) (st : LuaState) : Except luastate_error Unit × LuaState :=
  match getby st with
  | .error e => (.error e, st)
  | .ok st1 =>
      if lua_istable st1.top then (.ok (), st1)
      else (.error (mismatchErr keyStr "table"), st1.pop1)

/-- `lua_interpreter::impl::table_len` (lines 164-169):
`get_what_impl<FUNC1>(lua_len, tidx, lua_tointegerx, lua_isinteger, "integer")`;
the key rendered into error messages by the FUNC1 overload of `operator+`
(line 34) is the fixed placeholder `"function()"`. -/
def table_len (tidx : Nat) (st : LuaState) : Except luastate_error Int × LuaState :=
  get_what_impl (get_by_key_func1 tidx) "function()" lua_isinteger lua_tointegerx
    "integer" st

/-- The `Type == types::INT` specialization of `get_what` (lines 85-89):
`get_what_impl(key, tidx, lua_tointegerx, lua_isinteger, "integer")`. -/
def get_what_int (getby : LuaState → Except luastate_error LuaState) (keyStr : String)
    (st : LuaState) : Except luastate_error Int × LuaState :=
  get_what_impl getby keyStr lua_isinteger lua_tointegerx "integer" st

/-- The `Type == types::NUM` specialization of `get_what` (lines 93-97):
`get_what_impl(key, tidx, lua_tonumberx, lua_isnumber, "number or string convertible to number")`. -/
def get_what_num (getby : LuaState → Except luastate_error LuaState) (keyStr : String)
    (st : LuaState) : Except luastate_error LNum × LuaState :=
  get_what_impl getby keyStr lua_isnumber lua_tonumberx
    "number or string convertible to number" st

/-- The `Type == types::STR` specialization of `get_what` (lines 101-105):
`get_what_impl(key, tidx, lua_tolstring, lua_isstring, "string or number")`. -/
def get_what_str (getby : LuaState → Except luastate_error LuaState) (keyStr : String)
    (st : LuaState) : Except luastate_error String × LuaState :=
  get_what_impl getby keyStr lua_isstring lua_tolstring "string or number" st

/-- The `Type == types::BOOL` specialization of `get_what` (lines 109-116). -/
def get_what_bool (getby : LuaState → Except luastate_error LuaState) (keyStr : String)
    (st : LuaState) : Except luastate_error Bool × LuaState :=
  get_what_impl getby keyStr lua_isboolean lua_toboolean "boolean" st

/-- A source chunk, modelled by its outcome inside the external Lua runtime
(compilation and execution are the collaborator's `luaL_loadstring` +
`lua_pcall`): either it runs to completion performing a list of global
assignments, or it fails leaving an error object (a message string) pushed on
the stack. -/
inductive Chunk where
  | ok (assigns : List (String × LVal))
  | err (msg : String)

/-- The collaborator's `luaL_loadstring(L, code) || lua_pcall(L, 0, 0, 0)`
(line 55): on success the globals are updated and the stack is untouched; on
failure the error object is pushed.  A new assignment shadows an older binding
(lookup takes the most recent). -/
def chunk_exec (c : Chunk) (st : LuaState) : Bool × LuaState :=
  match c with
  | .ok assigns =>
      (false, { st with globals := assigns.foldl (fun g kv => kv :: g) st.globals })
  | .err m => (true, st.push (.str m))

namespace lua_interpreter

/-- `lua_interpreter::impl::run_chunk` (lines 53-62): run the chunk; on error
read the message from the error object at the top, pop it, and return
`(false, msg)`; otherwise return `(true, "")`. -/
def run_chunk (c : Chunk) (st : LuaState) : (Bool × String) × LuaState :=
  match chunk_exec c st with
  | (error, st1) =>
      if error then ((false, lua_tolstring st1.top), st1.pop1)
      else ((true, ""), st1)

/-- `lua_interpreter::get_global<types::INT>` (lines 227-232):
`get_what<GLOBAL, INT>(varname, IGNORED)`. -/
def get_global_int (name : String) (st : LuaState) : Except luastate_error Int × LuaState :=
  get_what_int (get_by_key_global name) name st

/-- `lua_interpreter::get_global<types::NUM>` (line 233). -/
def get_global_num (name : String) (st : LuaState) : Except luastate_error LNum × LuaState :=
  get_what_num (get_by_key_global name) name st

/-- `lua_interpreter::get_global<types::STR>` (line 234). -/
def get_global_str (name : String) (st : LuaState) : Except luastate_error String × LuaState :=
  get_what_str (get_by_key_global name) name st

/-- `lua_interpreter::get_global<types::BOOL>` (line 235). -/
def get_global_bool (name : String) (st : LuaState) : Except luastate_error Bool × LuaState :=
  get_what_bool (get_by_key_global name) name st

/-- `lua_interpreter::get_global<types::LTYPE>` (lines 139-142, 236):
`get_type_impl<GLOBAL>(varname, IGNORED)`. -/
def get_global_ltype (name : String) (st : LuaState) : Except luastate_error types × LuaState :=
  get_type_impl (get_by_key_global name) st

end lua_interpreter

/-- `table_handle::impl` (lines 244-259): the shared state behind a table
handle.  `stack_index` is `pstate->get_top_idx()` at construction time (the slot
the freshly pushed table occupies); `parent_index` records the parent impl's
`stack_index` (none for a root handle, whose parent pointer is null).  The
shared pointers to the interpreter impl and the parent impl keep both alive and
are never null inside a constructed impl, so the embedding keeps only the stack
bookkeeping they guard. -/
structure handle_impl where
  stack_index : Nat
  parent_index : Option Nat

/-- The `impl` constructor (lines 256-259): record the current stack top as
this handle's slot (the table was pushed just before construction). -/
def mk_handle_impl (st : LuaState) (parent : Option Nat) : handle_impl :=
  ⟨st.gettop, parent⟩

/-- `table_handle::impl::~impl` (lines 261-266): if the current depth still
reaches the recorded slot, remove that slot (`remove_table`, lines 159-162,
i.e. `lua_remove`); otherwise do nothing.  The destructor never throws. -/
def handle_impl.destroy (h : handle_impl) (st : LuaState) : LuaState :=
  if st.gettop ≥ h.stack_index then st.removeAt h.stack_index else st

/-- `luai::table_handle`: the public wrapper holding a shared pointer to an
impl; the pointer is null exactly in the moved-from state. -/
structure table_handle where
  pimpl : Option handle_impl

/-- The defaulted move constructor / move assignment (lines 274-275): the
shared pointer is transferred, leaving the source null.  Returns
(destination handle, source after the move). -/
def table_handle.move (h : table_handle) : table_handle × table_handle :=
  (⟨h.pimpl⟩, ⟨none⟩)

/-- Destruction of a `table_handle` value: a live handle destroys its impl
(running lines 261-266); a moved-from handle holds a null shared pointer and
destroys nothing. -/
def table_handle.destroy (h : table_handle) (st : LuaState) : LuaState :=
  match h.pimpl with
  | some i => i.destroy st
  | none => st

/-- `lua_interpreter::get_global<types::TABLE>` (lines 238-242):
`push_table<GLOBAL>` then construct a root handle `{pimpl, nullptr}`. -/
def lua_interpreter.get_global_table (name : String) (st : LuaState) :
    Except luastate_error table_handle × LuaState :=
  match push_table (get_by_key_global name) name st with
  | (.error e, st') => (.error e, st')
  | (.ok _, st') => (.ok ⟨some (mk_handle_impl st' none)⟩, st')

namespace handle_impl

/-- `table_handle::get_field<types::INT>` (lines 277-283):
`get_what<TABLE, INT>(varname, stack_index)`. -/
def get_field_int (h : handle_impl) (name : String) (st : LuaState) :
    Except luastate_error Int × LuaState :=
  get_what_int (get_by_key_table name h.stack_index) name st

/-- `table_handle::get_field<types::NUM>` (line 284). -/
def get_field_num (h : handle_impl) (name : String) (st : LuaState) :
    Except luastate_error LNum × LuaState :=
  get_what_num (get_by_key_table name h.stack_index) name st

/-- `table_handle::get_field<types::STR>` (line 285). -/
def get_field_str (h : handle_impl) (name : String) (st : LuaState) :
    Except luastate_error String × LuaState :=
  get_what_str (get_by_key_table name h.stack_index) name st

/-- `table_handle::get_field<types::BOOL>` (line 286). -/
def get_field_bool (h : handle_impl) (name : String) (st : LuaState) :
    Except luastate_error Bool × LuaState :=
  get_what_bool (get_by_key_table name h.stack_index) name st

/-- `table_handle::get_field<types::LTYPE>` (line 287). -/
def get_field_ltype (h : handle_impl) (name : String) (st : LuaState) :
    Except luastate_error types × LuaState :=
  get_type_impl (get_by_key_table name h.stack_index) st

/-- `table_handle::get_field<types::TABLE>` (lines 289-293):
`push_table<TABLE>(varname, stack_index)`, then construct a child handle
`{pstate, pimpl}` whose parent is this impl. -/
def get_field_table (h : handle_impl) (name : String) (st : LuaState) :
    Except luastate_error table_handle × LuaState :=
  match push_table (get_by_key_table name h.stack_index) name st with
  | (.error e, st') => (.error e, st')
  | (.ok _, st') => (.ok ⟨some (mk_handle_impl st' (some h.stack_index))⟩, st')

/-- `table_handle::get_index<types::INT>` (lines 295-301); the integer key is
rendered into error messages by `std::to_string` (line 31). -/
def get_index_int (h : handle_impl) (i : Int) (st : LuaState) :
    Except luastate_error Int × LuaState :=
  get_what_int (get_by_key_index i h.stack_index) (toString i) st

/-- `table_handle::get_index<types::NUM>` (line 302). -/
def get_index_num (h : handle_impl) (i : Int) (st : LuaState) :
    Except luastate_error LNum × LuaState :=
  get_what_num (get_by_key_index i h.stack_index) (toString i) st

/-- `table_handle::get_index<types::STR>` (line 303). -/
def get_index_str (h : handle_impl) (i : Int) (st : LuaState) :
    Except luastate_error String × LuaState :=
  get_what_str (get_by_key_index i h.stack_index) (toString i) st

/-- `table_handle::get_index<types::BOOL>` (line 304). -/
def get_index_bool (h : handle_impl) (i : Int) (st : LuaState) :
    Except luastate_error Bool × LuaState :=
  get_what_bool (get_by_key_index i h.stack_index) (toString i) st

/-- `table_handle::get_index<types::LTYPE>` (line 305). -/
def get_index_ltype (h : handle_impl) (i : Int) (st : LuaState) :
    Except luastate_error types × LuaState :=
  get_type_impl (get_by_key_index i h.stack_index) st

/-- `table_handle::get_index<types::TABLE>` (lines 307-311). -/
def get_index_table (h : handle_impl) (i : Int) (st : LuaState) :
    Except luastate_error table_handle × LuaState :=
  match push_table (get_by_key_index i h.stack_index) (toString i) st with
  | (.error e, st') => (.error e, st')
  | (.ok _, st') => (.ok ⟨some (mk_handle_impl st' (some h.stack_index))⟩, st')

/-- `table_handle::len` (lines 313-315): `table_len(stack_index)`. -/
def len (h : handle_impl) (st : LuaState) : Except luastate_error Int × LuaState :=
  table_len h.stack_index st

end handle_impl

/-- The dynamic-type classification the `LTYPE` probe computes: the conditional
chain on `lua_type` (lines 124-130) composed with the `lua_isinteger`
refinement of NUM to INT (lines 131-132), written as one function of the
inspected value. -/
def classify (v : LVal) : types :=
  match v with
  | .num (.int _) => .INT
  | .num (.flt _) => .NUM
  | .str _ => .STR
  | .boolean _ => .BOOL
  | .table _ => .TABLE
  | .nil => .NIL
  | .other => .OTHER

/-- The specification's reading of the numeric sub-kind split: a number "has no
fractional representation".  It holds for every integer-subtype value and for a
float-subtype value exactly when the double is integral. -/
def hasNoFractionalPart : LNum → Bool
  | .int _ => true
  | .flt isIntegral => isIntegral

/-- Fixture: a fresh interpreter state — no globals, empty operand stack. -/
def initState : LuaState := ⟨[], []⟩

/-- The outcome inside the external runtime of the chunk `x = 42`: the global
`x` becomes the integer 42. -/
def chunk_x_42 : Chunk := .ok [("x", .num (.int 42))]

/-- The outcome of the chunk `t = {1,2,3}`: the global `t` becomes a table
whose array part maps 1, 2, 3 to the integers 1, 2, 3. -/
def chunk_t_seq : Chunk :=
  .ok [("t", .table (.mk [] [(1, .num (.int 1)), (2, .num (.int 2)), (3, .num (.int 3))]))]

/-- The outcome of the chunk `t = {a=5}`: the global `t` becomes a table whose
field `a` is the integer 5. -/
def chunk_t_a5 : Chunk := .ok [("t", .table (.mk [("a", .num (.int 5))] []))]

/-- The outcome of the chunk `t = {{b="hi"}}`: the global `t` becomes a table
whose element 1 is a table whose field `b` is the string "hi". -/
def chunk_t_nested : Chunk :=
  .ok [("t", .table (.mk [] [(1, .table (.mk [("b", .str "hi")] []))]))]

/-- Fixture: the state after running `x = 42` on a fresh interpreter. -/
def stx42 : LuaState := (lua_interpreter.run_chunk chunk_x_42 initState).2

/-- Fixture: a state whose global `x` is a float-subtype number with an
integral value (the state after running `x = 42.0`). -/
def stFlt : LuaState := ⟨[("x", .num (.flt true))], []⟩

/-- Fixture: a state whose global `t` is an empty table. -/
def stTbl : LuaState := ⟨[("t", .table (.mk [] []))], []⟩

/-- Fixture: a table holding a table-valued field `u` and a table-valued
element 1. -/
def tblOuter : LTable := .mk [("u", .table (.mk [] []))] [(1, .table (.mk [] []))]

/-- Fixture: a state with `tblOuter` resident at stack index 1, as after a
table handle was opened on it. -/
def stOpen : LuaState := ⟨[], [.table tblOuter]⟩

end luai

namespace LuaModel

theorem top_push (st : LuaState) (v : LVal) : (st.push v).top = v := rfl

theorem pop1_push (st : LuaState) (v : LVal) : (st.push v).pop1 = st := rfl

theorem gettop_push (st : LuaState) (v : LVal) : (st.push v).gettop = st.gettop + 1 := rfl

theorem stack_push (st : LuaState) (v : LVal) : (st.push v).stack = v :: st.stack := rfl

end LuaModel

namespace luai

open LuaModel

theorem protect_indexing_of_lt (st : LuaState) (idx : Nat) (h : st.gettop < idx) :
    protect_indexing st idx = .error corruptedErr := by
  unfold protect_indexing
  rw [if_neg (by omega)]

theorem protect_indexing_of_ge (st : LuaState) (idx : Nat) (h : st.gettop ≥ idx) :
    protect_indexing st idx = .ok () := by
  unfold protect_indexing
  rw [if_pos h]

theorem get_by_key_table_of_lt (name : String) (tidx : Nat) (st : LuaState)
    (h : st.gettop < tidx) : get_by_key_table name tidx st = .error corruptedErr := by
  unfold get_by_key_table
  rw [protect_indexing_of_lt st tidx h]

theorem get_by_key_index_of_lt (i : Int) (tidx : Nat) (st : LuaState)
    (h : st.gettop < tidx) : get_by_key_index i tidx st = .error corruptedErr := by
  unfold get_by_key_index
  rw [protect_indexing_of_lt st tidx h]

theorem get_by_key_func1_of_lt (tidx : Nat) (st : LuaState)
    (h : st.gettop < tidx) : get_by_key_func1 tidx st = .error corruptedErr := by
  unfold get_by_key_func1
  rw [protect_indexing_of_lt st tidx h]

theorem get_by_key_table_of_ge (name : String) (tidx : Nat) (st : LuaState)
    (h : st.gettop ≥ tidx) :
    get_by_key_table name tidx st = .ok (st.push (st.fieldAt tidx name)) := by
  unfold get_by_key_table
  rw [protect_indexing_of_ge st tidx h]
  rfl

theorem get_by_key_index_of_ge (i : Int) (tidx : Nat) (st : LuaState)
    (h : st.gettop ≥ tidx) :
    get_by_key_index i tidx st = .ok (st.push (st.indexAt tidx i)) := by
  unfold get_by_key_index
  rw [protect_indexing_of_ge st tidx h]
  rfl

theorem get_by_key_func1_of_ge (tidx : Nat) (st : LuaState)
    (h : st.gettop ≥ tidx) :
    get_by_key_func1 tidx st = .ok (st.push (lua_len_val (st.at tidx))) := by
  unfold get_by_key_func1
  rw [protect_indexing_of_ge st tidx h]
  rfl

theorem get_what_impl_of_err {R : Type} (getby : LuaState → Except luastate_error LuaState)
    (keyStr : String) (checkfunc : LVal → Bool) (cvrtfunc : LVal → R) (throwmsg : String)
    (st : LuaState) (e : luastate_error) (hg : getby st = .error e) :
    get_what_impl getby keyStr checkfunc cvrtfunc throwmsg st = (.error e, st) := by
  unfold get_what_impl
  rw [hg]

theorem get_type_impl_of_err (getby : LuaState → Except luastate_error LuaState)
    (st : LuaState) (e : luastate_error) (hg : getby st = .error e) :
    get_type_impl getby st = (.error e, st) := by
  unfold get_type_impl
  rw [hg]

theorem push_table_of_err (getby : LuaState → Except luastate_error LuaState)
    (keyStr : String) (st : LuaState) (e : luastate_error) (hg : getby st = .error e) :
    push_table getby keyStr st = (.error e, st) := by
  unfold push_table
  rw [hg]

/-- After a successful push, the value the check inspects is the pushed one;
this evaluates `get_what_impl` over a push-shaped `get_by_key`. -/
theorem get_what_impl_of_push {R : Type} (getby : LuaState → Except luastate_error LuaState)
    (keyStr : String) (checkfunc : LVal → Bool) (cvrtfunc : LVal → R) (throwmsg : String)
    (st : LuaState) (v : LVal) (hg : getby st = .ok (st.push v)) :
    get_what_impl getby keyStr checkfunc cvrtfunc throwmsg st =
      if checkfunc v then (.ok (cvrtfunc v), st) else (.error (mismatchErr keyStr throwmsg), st) := by
  unfold get_what_impl
  rw [hg]
  simp only [top_push, pop1_push]

theorem get_type_impl_of_push (getby : LuaState → Except luastate_error LuaState)
    (st : LuaState) (v : LVal) (hg : getby st = .ok (st.push v)) :
    get_type_impl getby st = (.ok (classify v), st) := by
  unfold get_type_impl
  rw [hg]
  simp only [top_push, pop1_push]
  cases v with
  | num n => cases n <;> simp [classify, lua_isinteger]
  | nil => simp [classify, lua_isinteger]
  | str s => simp [classify, lua_isinteger]
  | boolean b => simp [classify, lua_isinteger]
  | table t => simp [classify, lua_isinteger]
  | other => simp [classify, lua_isinteger]

theorem push_table_of_push (getby : LuaState → Except luastate_error LuaState)
    (keyStr : String) (st : LuaState) (v : LVal) (hg : getby st = .ok (st.push v)) :
    push_table getby keyStr st =
      if lua_istable v then (.ok (), st.push v)
      else (.error (mismatchErr keyStr "table"), st) := by
  unfold push_table
  rw [hg]
  simp only [top_push, pop1_push]

theorem get_by_key_global_push (name : String) (st : LuaState) :
    get_by_key_global name st = .ok (st.push (lookupStr st.globals name)) := rfl

/-- Destroying a handle constructed right after a push removes exactly the
pushed slot, restoring the previous state. -/
theorem destroy_mk_push (st : LuaState) (v : LVal) (p : Option Nat) :
    (mk_handle_impl (st.push v) p).destroy (st.push v) = st := by
  unfold mk_handle_impl handle_impl.destroy
  rw [if_pos (le_refl _)]
  unfold LuaState.removeAt
  simp [LuaState.push, LuaState.gettop]

/-- The corrupted-stack error is a different error value from every type
mismatch error: its message is not of the `"variable/field [..."` shape. -/
theorem corruptedErr_ne_mismatchErr (k m : String) : corruptedErr ≠ mismatchErr k m := by
  intro h
  have h2 := congrArg (fun e => e.msg.data) h
  simp [corruptedErr, mismatchErr, String.data_append] at h2

theorem get_global_table_of_table (name : String) (st : LuaState)
    (hc : lua_istable (lookupStr st.globals name) = true) :
    lua_interpreter.get_global_table name st =
      (.ok ⟨some ⟨st.gettop + 1, none⟩⟩, st.push (lookupStr st.globals name)) := by
  unfold lua_interpreter.get_global_table
  rw [push_table_of_push (get_by_key_global name) name st (lookupStr st.globals name)
    (get_by_key_global_push name st), if_pos hc]
  rfl

theorem get_global_table_of_not_table (name : String) (st : LuaState)
    (hc : ¬ lua_istable (lookupStr st.globals name) = true) :
    lua_interpreter.get_global_table name st = (.error (mismatchErr name "table"), st) := by
  unfold lua_interpreter.get_global_table
  rw [push_table_of_push (get_by_key_global name) name st (lookupStr st.globals name)
    (get_by_key_global_push name st), if_neg hc]

theorem get_field_table_of_table (p : handle_impl) (name : String) (st : LuaState)
    (hge : st.gettop ≥ p.stack_index)
    (hc : lua_istable (st.fieldAt p.stack_index name) = true) :
    p.get_field_table name st =
      (.ok ⟨some ⟨st.gettop + 1, some p.stack_index⟩⟩,
        st.push (st.fieldAt p.stack_index name)) := by
  unfold handle_impl.get_field_table
  rw [push_table_of_push _ name st _ (get_by_key_table_of_ge name p.stack_index st hge),
    if_pos hc]
  rfl

theorem get_field_table_of_not_table (p : handle_impl) (name : String) (st : LuaState)
    (hge : st.gettop ≥ p.stack_index)
    (hc : ¬ lua_istable (st.fieldAt p.stack_index name) = true) :
    p.get_field_table name st = (.error (mismatchErr name "table"), st) := by
  unfold handle_impl.get_field_table
  rw [push_table_of_push _ name st _ (get_by_key_table_of_ge name p.stack_index st hge),
    if_neg hc]

theorem get_field_table_of_lt (p : handle_impl) (name : String) (st : LuaState)
    (hlt : st.gettop < p.stack_index) :
    p.get_field_table name st = (.error corruptedErr, st) := by
  unfold handle_impl.get_field_table
  rw [push_table_of_err _ name st _ (get_by_key_table_of_lt name p.stack_index st hlt)]

theorem get_index_table_of_table (p : handle_impl) (i : Int) (st : LuaState)
    (hge : st.gettop ≥ p.stack_index)
    (hc : lua_istable (st.indexAt p.stack_index i) = true) :
    p.get_index_table i st =
      (.ok ⟨some ⟨st.gettop + 1, some p.stack_index⟩⟩,
        st.push (st.indexAt p.stack_index i)) := by
  unfold handle_impl.get_index_table
  rw [push_table_of_push _ (toString i) st _ (get_by_key_index_of_ge i p.stack_index st hge),
    if_pos hc]
  rfl

theorem get_index_table_of_not_table (p : handle_impl) (i : Int) (st : LuaState)
    (hge : st.gettop ≥ p.stack_index)
    (hc : ¬ lua_istable (st.indexAt p.stack_index i) = true) :
    p.get_index_table i st = (.error (mismatchErr (toString i) "table"), st) := by
  unfold handle_impl.get_index_table
  rw [push_table_of_push _ (toString i) st _ (get_by_key_index_of_ge i p.stack_index st hge),
    if_neg hc]

theorem get_index_table_of_lt (p : handle_impl) (i : Int) (st : LuaState)
    (hlt : st.gettop < p.stack_index) :
    p.get_index_table i st = (.error corruptedErr, st) := by
  unfold handle_impl.get_index_table
  rw [push_table_of_err _ (toString i) st _ (get_by_key_index_of_lt i p.stack_index st hlt)]

/-- C1: every table-handle operation — get field at every scalar kind and the
type probe, get field as table, get index at every scalar kind and the type
probe, get index as table, and length — first checks that the current stack
depth reaches the handle's recorded stack depth; when the check fails the
operation returns the corrupted-stack error with the state untouched (nothing
was pushed, so the underlying lookup never ran), and that error is a different
error value from every type-mismatch error. -/
theorem C1_corrupted_stack_guard (st : LuaState) (h : handle_impl) (name : String) (i : Int)
    (hlt : st.gettop < h.stack_index) :
    h.get_field_int name st = (.error corruptedErr, st) ∧
    h.get_field_num name st = (.error corruptedErr, st) ∧
    h.get_field_str name st = (.error corruptedErr, st) ∧
    h.get_field_bool name st = (.error corruptedErr, st) ∧
    h.get_field_ltype name st = (.error corruptedErr, st) ∧
    h.get_field_table name st = (.error corruptedErr, st) ∧
    h.get_index_int i st = (.error corruptedErr, st) ∧
    h.get_index_num i st = (.error corruptedErr, st) ∧
    h.get_index_str i st = (.error corruptedErr, st) ∧
    h.get_index_bool i st = (.error corruptedErr, st) ∧
    h.get_index_ltype i st = (.error corruptedErr, st) ∧
    h.get_index_table i st = (.error corruptedErr, st) ∧
    h.len st = (.error corruptedErr, st) ∧
    (∀ k m, corruptedErr ≠ mismatchErr k m) := by
  have ht := get_by_key_table_of_lt name h.stack_index st hlt
  have hi := get_by_key_index_of_lt i h.stack_index st hlt
  have hf := get_by_key_func1_of_lt h.stack_index st hlt
  refine ⟨?_, ?_, ?_, ?_, ?_, ?_, ?_, ?_, ?_, ?_, ?_, ?_, ?_,
    corruptedErr_ne_mismatchErr⟩
  · exact get_what_impl_of_err _ _ _ _ _ st _ ht
  · exact get_what_impl_of_err _ _ _ _ _ st _ ht
  · exact get_what_impl_of_err _ _ _ _ _ st _ ht
  · exact get_what_impl_of_err _ _ _ _ _ st _ ht
  · exact get_type_impl_of_err _ st _ ht
  · exact get_field_table_of_lt h name st hlt
  · exact get_what_impl_of_err _ _ _ _ _ st _ hi
  · exact get_what_impl_of_err _ _ _ _ _ st _ hi
  · exact get_what_impl_of_err _ _ _ _ _ st _ hi
  · exact get_what_impl_of_err _ _ _ _ _ st _ hi
  · exact get_type_impl_of_err _ st _ hi
  · exact get_index_table_of_lt h i st hlt
  · exact get_what_impl_of_err _ _ _ _ _ st _ hf

theorem C1_corrupted_stack_guard_witness :
    initState.gettop < (1 : Nat) ∧
    ((⟨1, none⟩ : handle_impl).get_field_int "a" initState = (.error corruptedErr, initState) ∧
     (⟨1, none⟩ : handle_impl).get_field_num "a" initState = (.error corruptedErr, initState) ∧
     (⟨1, none⟩ : handle_impl).get_field_str "a" initState = (.error corruptedErr, initState) ∧
     (⟨1, none⟩ : handle_impl).get_field_bool "a" initState = (.error corruptedErr, initState) ∧
     (⟨1, none⟩ : handle_impl).get_field_ltype "a" initState = (.error corruptedErr, initState) ∧
     (⟨1, none⟩ : handle_impl).get_field_table "a" initState = (.error corruptedErr, initState) ∧
     (⟨1, none⟩ : handle_impl).get_index_int 1 initState = (.error corruptedErr, initState) ∧
     (⟨1, none⟩ : handle_impl).get_index_num 1 initState = (.error corruptedErr, initState) ∧
     (⟨1, none⟩ : handle_impl).get_index_str 1 initState = (.error corruptedErr, initState) ∧
     (⟨1, none⟩ : handle_impl).get_index_bool 1 initState = (.error corruptedErr, initState) ∧
     (⟨1, none⟩ : handle_impl).get_index_ltype 1 initState = (.error corruptedErr, initState) ∧
     (⟨1, none⟩ : handle_impl).get_index_table 1 initState = (.error corruptedErr, initState) ∧
     (⟨1, none⟩ : handle_impl).len initState = (.error corruptedErr, initState) ∧
     (∀ k m, corruptedErr ≠ mismatchErr k m)) :=
  ⟨by decide, C1_corrupted_stack_guard initState ⟨1, none⟩ "a" 1 (by decide)⟩

/-- C2: every successful table open — get global table, get field as table,
get index as table — leaves the stack exactly one deeper; destroying the
returned handle restores the pre-open state exactly (depth included), the
same holds for a handle the original was moved into, and destroying the
moved-from original afterwards changes nothing. -/
theorem C2_open_close_balance (st : LuaState) (name : String) (i : Int) (p : handle_impl) :
    (∀ th st', lua_interpreter.get_global_table name st = (.ok th, st') →
      st'.gettop = st.gettop + 1 ∧ th.destroy st' = st ∧
      (th.move).1.destroy st' = st ∧ (th.move).2.destroy st = st) ∧
    (∀ th st', p.get_field_table name st = (.ok th, st') →
      st'.gettop = st.gettop + 1 ∧ th.destroy st' = st ∧
      (th.move).1.destroy st' = st ∧ (th.move).2.destroy st = st) ∧
    (∀ th st', p.get_index_table i st = (.ok th, st') →
      st'.gettop = st.gettop + 1 ∧ th.destroy st' = st ∧
      (th.move).1.destroy st' = st ∧ (th.move).2.destroy st = st) := by
  refine ⟨?_, ?_, ?_⟩
  · intro th st' hok
    by_cases hc : lua_istable (lookupStr st.globals name) = true
    · rw [get_global_table_of_table name st hc] at hok
      injection hok with h1 h2
      injection h1 with h1
      subst h1
      subst h2
      exact ⟨rfl, destroy_mk_push st _ none, destroy_mk_push st _ none, rfl⟩
    · rw [get_global_table_of_not_table name st hc] at hok
      simp at hok
  · intro th st' hok
    by_cases hge : st.gettop ≥ p.stack_index
    · by_cases hc : lua_istable (st.fieldAt p.stack_index name) = true
      · rw [get_field_table_of_table p name st hge hc] at hok
        injection hok with h1 h2
        injection h1 with h1
        subst h1
        subst h2
        exact ⟨rfl, destroy_mk_push st _ (some p.stack_index),
          destroy_mk_push st _ (some p.stack_index), rfl⟩
      · rw [get_field_table_of_not_table p name st hge hc] at hok
        simp at hok
    · rw [get_field_table_of_lt p name st (by omega)] at hok
      simp at hok
  · intro th st' hok
    by_cases hge : st.gettop ≥ p.stack_index
    · by_cases hc : lua_istable (st.indexAt p.stack_index i) = true
      · rw [get_index_table_of_table p i st hge hc] at hok
        injection hok with h1 h2
        injection h1 with h1
        subst h1
        subst h2
        exact ⟨rfl, destroy_mk_push st _ (some p.stack_index),
          destroy_mk_push st _ (some p.stack_index), rfl⟩
      · rw [get_index_table_of_not_table p i st hge hc] at hok
        simp at hok
    · rw [get_index_table_of_lt p i st (by omega)] at hok
      simp at hok

theorem C2_open_close_balance_witness :
    (lua_interpreter.get_global_table "t" stTbl =
        (.ok ⟨some ⟨1, none⟩⟩, stTbl.push (.table (.mk [] []))) ∧
      ((stTbl.push (.table (.mk [] []))).gettop = stTbl.gettop + 1 ∧
       table_handle.destroy ⟨some ⟨1, none⟩⟩ (stTbl.push (.table (.mk [] []))) = stTbl ∧
       (table_handle.move ⟨some ⟨1, none⟩⟩).1.destroy (stTbl.push (.table (.mk [] []))) = stTbl ∧
       (table_handle.move ⟨some ⟨1, none⟩⟩).2.destroy stTbl = stTbl)) ∧
    ((⟨1, none⟩ : handle_impl).get_field_table "u" stOpen =
        (.ok ⟨some ⟨2, some 1⟩⟩, stOpen.push (.table (.mk [] []))) ∧
      ((stOpen.push (.table (.mk [] []))).gettop = stOpen.gettop + 1 ∧
       table_handle.destroy ⟨some ⟨2, some 1⟩⟩ (stOpen.push (.table (.mk [] []))) = stOpen ∧
       (table_handle.move ⟨some ⟨2, some 1⟩⟩).1.destroy (stOpen.push (.table (.mk [] []))) = stOpen ∧
       (table_handle.move ⟨some ⟨2, some 1⟩⟩).2.destroy stOpen = stOpen)) ∧
    ((⟨1, none⟩ : handle_impl).get_index_table 1 stOpen =
        (.ok ⟨some ⟨2, some 1⟩⟩, stOpen.push (.table (.mk [] []))) ∧
      ((stOpen.push (.table (.mk [] []))).gettop = stOpen.gettop + 1 ∧
       table_handle.destroy ⟨some ⟨2, some 1⟩⟩ (stOpen.push (.table (.mk [] []))) = stOpen ∧
       (table_handle.move ⟨some ⟨2, some 1⟩⟩).1.destroy (stOpen.push (.table (.mk [] []))) = stOpen ∧
       (table_handle.move ⟨some ⟨2, some 1⟩⟩).2.destroy stOpen = stOpen)) :=
  ⟨⟨rfl, (C2_open_close_balance stTbl "t" 1 ⟨1, none⟩).1 _ _ rfl⟩,
   ⟨rfl, (C2_open_close_balance stOpen "u" 1 ⟨1, none⟩).2.1 _ _ rfl⟩,
   ⟨rfl, (C2_open_close_balance stOpen "u" 1 ⟨1, none⟩).2.2 _ _ rfl⟩⟩

/-- C3 counterexample to the claim as stated: after `x = 42` the global `x`
has dynamic runtime type integer (the script-type probe reports INT), which is
not the requested string kind, yet get-global at the string kind succeeds and
returns "42" with the state unchanged instead of failing with a type-mismatch
error — the runtime's string check accepts numbers (`lua_isstring`, whose
failure message in the source even reads "is not string or number"). -/
theorem C3_counterexample_number_as_string :
    (lua_interpreter.get_global_ltype "x" stx42).1 = .ok types.INT ∧
    types.INT ≠ types.STR ∧
    lua_interpreter.get_global_str "x" stx42 = (.ok "42", stx42) :=
  ⟨rfl, by decide, rfl⟩

/-- C3 amended: for every global (a non-existent one surfaces as nil) whose
value fails the requested kind's runtime check — integer: not an
integer-subtype number; number: neither a number nor a string convertible to a
number; string: neither a string nor a number; boolean: not a boolean —
get-global fails with a type-mismatch error whose message contains the
variable name and the expected-kind text, and the state (hence the stack
depth) after the failing call equals the one before it. -/
theorem C3_scalar_mismatch_amended (st : LuaState) (name : String) :
    (lua_isinteger (lookupStr st.globals name) = false →
      lua_interpreter.get_global_int name st =
        (.error (mismatchErr name "integer"), st)) ∧
    (lua_isnumber (lookupStr st.globals name) = false →
      lua_interpreter.get_global_num name st =
        (.error (mismatchErr name "number or string convertible to number"), st)) ∧
    (lua_isstring (lookupStr st.globals name) = false →
      lua_interpreter.get_global_str name st =
        (.error (mismatchErr name "string or number"), st)) ∧
    (lua_isboolean (lookupStr st.globals name) = false →
      lua_interpreter.get_global_bool name st =
        (.error (mismatchErr name "boolean"), st)) := by
  refine ⟨fun hc => ?_, fun hc => ?_, fun hc => ?_, fun hc => ?_⟩
  · unfold lua_interpreter.get_global_int get_what_int
    rw [get_what_impl_of_push (get_by_key_global name) name lua_isinteger lua_tointegerx
      "integer" st (lookupStr st.globals name) (get_by_key_global_push name st)]
    simp [hc]
  · unfold lua_interpreter.get_global_num get_what_num
    rw [get_what_impl_of_push (get_by_key_global name) name lua_isnumber lua_tonumberx
      "number or string convertible to number" st (lookupStr st.globals name)
      (get_by_key_global_push name st)]
    simp [hc]
  · unfold lua_interpreter.get_global_str get_what_str
    rw [get_what_impl_of_push (get_by_key_global name) name lua_isstring lua_tolstring
      "string or number" st (lookupStr st.globals name) (get_by_key_global_push name st)]
    simp [hc]
  · unfold lua_interpreter.get_global_bool get_what_bool
    rw [get_what_impl_of_push (get_by_key_global name) name lua_isboolean lua_toboolean
      "boolean" st (lookupStr st.globals name) (get_by_key_global_push name st)]
    simp [hc]

theorem C3_scalar_mismatch_amended_witness :
    (lua_isinteger (lookupStr initState.globals "x") = false ∧
      lua_interpreter.get_global_int "x" initState =
        (.error (mismatchErr "x" "integer"), initState)) ∧
    (lua_isnumber (lookupStr initState.globals "x") = false ∧
      lua_interpreter.get_global_num "x" initState =
        (.error (mismatchErr "x" "number or string convertible to number"), initState)) ∧
    (lua_isstring (lookupStr initState.globals "x") = false ∧
      lua_interpreter.get_global_str "x" initState =
        (.error (mismatchErr "x" "string or number"), initState)) ∧
    (lua_isboolean (lookupStr initState.globals "x") = false ∧
      lua_interpreter.get_global_bool "x" initState =
        (.error (mismatchErr "x" "boolean"), initState)) :=
  ⟨⟨rfl, (C3_scalar_mismatch_amended initState "x").1 rfl⟩,
   ⟨rfl, (C3_scalar_mismatch_amended initState "x").2.1 rfl⟩,
   ⟨rfl, (C3_scalar_mismatch_amended initState "x").2.2.1 rfl⟩,
   ⟨rfl, (C3_scalar_mismatch_amended initState "x").2.2.2 rfl⟩⟩

/-- C4 counterexample to the claim as stated: the global `x` of `stFlt` holds
a float-subtype number whose value is integral (it "has no fractional
representation" in the specification's words), yet the script-type probe
classifies it as the number kind, not the integer kind — `lua_isinteger`
tests the integer subtype, not value integrality. -/
theorem C4_counterexample_integral_float :
    lookupStr stFlt.globals "x" = .num (.flt true) ∧
    hasNoFractionalPart (.flt true) = true ∧
    (lua_interpreter.get_global_ltype "x" stFlt).1 = .ok types.NUM ∧
    types.NUM ≠ types.INT :=
  ⟨rfl, rfl, rfl, by decide⟩

/-- C4 amended: the script-type probe classifies a numeric global as the
integer kind exactly when the value is of the runtime's integer subtype; every
float-subtype number — integral-valued or not — is classified as the number
kind.  In both cases the state is unchanged. -/
theorem C4_numeric_probe_amended (st : LuaState) (name : String) :
    (∀ n : Int, lookupStr st.globals name = .num (.int n) →
      lua_interpreter.get_global_ltype name st = (.ok types.INT, st)) ∧
    (∀ b : Bool, lookupStr st.globals name = .num (.flt b) →
      lua_interpreter.get_global_ltype name st = (.ok types.NUM, st)) := by
  have h0 : lua_interpreter.get_global_ltype name st =
      (.ok (classify (lookupStr st.globals name)), st) := by
    unfold lua_interpreter.get_global_ltype
    exact get_type_impl_of_push _ st _ (get_by_key_global_push name st)
  constructor
  · intro n hv
    rw [h0, hv]
    rfl
  · intro b hv
    rw [h0, hv]
    rfl

theorem C4_numeric_probe_amended_witness :
    (lookupStr stx42.globals "x" = .num (.int 42) ∧
      lua_interpreter.get_global_ltype "x" stx42 = (.ok types.INT, stx42)) ∧
    (lookupStr stFlt.globals "x" = .num (.flt true) ∧
      lua_interpreter.get_global_ltype "x" stFlt = (.ok types.NUM, stFlt)) :=
  ⟨⟨rfl, (C4_numeric_probe_amended stx42 "x").1 42 rfl⟩,
   ⟨rfl, (C4_numeric_probe_amended stFlt "x").2 true rfl⟩⟩

/-- C5: chunk execution returns a success flag, and on failure the message of
the runtime's error object (which is popped); the operand stack after the call
is exactly the one before it, in the success and in the failure case alike. -/
theorem C5_run_chunk_stack_neutral (st : LuaState) (c : Chunk) :
    ((lua_interpreter.run_chunk c st).2).stack = st.stack ∧
    (lua_interpreter.run_chunk c st).1 =
      (match c with
       | .ok _ => (true, "")
       | .err m => (false, m)) := by
  cases c with
  | ok assigns => exact ⟨rfl, rfl⟩
  | err m => exact ⟨rfl, rfl⟩

/-- C6: the four round-trips of the specification — `x = 42` read back as
integer 42; `t = {1,2,3}` opened and measured as length 3; `t = {a=5}` opened
with field `a` read as integer 5; `t = {{b="hi"}}` opened, element 1 opened as
a child table, field `b` read as string "hi". -/
theorem C6_roundtrip :
    (lua_interpreter.get_global_int "x"
      (lua_interpreter.run_chunk chunk_x_42 initState).2).1 = .ok 42 ∧
    (∃ c rest, lua_interpreter.get_global_table "t"
        (lua_interpreter.run_chunk chunk_t_seq initState).2 = (.ok ⟨some c⟩, rest) ∧
      (c.len rest).1 = .ok 3) ∧
    (∃ c rest, lua_interpreter.get_global_table "t"
        (lua_interpreter.run_chunk chunk_t_a5 initState).2 = (.ok ⟨some c⟩, rest) ∧
      (c.get_field_int "a" rest).1 = .ok 5) ∧
    (∃ c rest c2 rest2, lua_interpreter.get_global_table "t"
        (lua_interpreter.run_chunk chunk_t_nested initState).2 = (.ok ⟨some c⟩, rest) ∧
      c.get_index_table 1 rest = (.ok ⟨some c2⟩, rest2) ∧
      (c2.get_field_str "b" rest2).1 = .ok "hi") :=
  ⟨rfl,
   ⟨⟨1, none⟩, _, rfl, rfl⟩,
   ⟨⟨1, none⟩, _, rfl, rfl⟩,
   ⟨⟨1, none⟩, _, ⟨2, some 1⟩, _, rfl, rfl, rfl⟩⟩

/-- C7: get-global-table pushes the named global and verifies it is a table.
On success the net stack effect is +1 (the pushed slot stays resident) and the
returned root handle (null parent) records the new stack top as its slot; on
mismatch the slot is popped — the final state is exactly the pre-call state —
and the call fails with the type-mismatch error naming the variable and the
table kind. -/
theorem C7_get_global_table_contract (st : LuaState) (name : String) :
    (lua_istable (lookupStr st.globals name) = true →
      lua_interpreter.get_global_table name st =
        (.ok ⟨some ⟨st.gettop + 1, none⟩⟩, st.push (lookupStr st.globals name))) ∧
    (lua_istable (lookupStr st.globals name) = false →
      lua_interpreter.get_global_table name st = (.error (mismatchErr name "table"), st)) := by
  constructor
  · intro hc
    exact get_global_table_of_table name st hc
  · intro hc
    exact get_global_table_of_not_table name st (by simp [hc])

theorem C7_get_global_table_contract_witness :
    (lua_istable (lookupStr stTbl.globals "t") = true ∧
      lua_interpreter.get_global_table "t" stTbl =
        (.ok ⟨some ⟨stTbl.gettop + 1, none⟩⟩, stTbl.push (lookupStr stTbl.globals "t"))) ∧
    (lua_istable (lookupStr stx42.globals "x") = false ∧
      lua_interpreter.get_global_table "x" stx42 =
        (.error (mismatchErr "x" "table"), stx42)) :=
  ⟨⟨rfl, (C7_get_global_table_contract stTbl "t").1 rfl⟩,
   ⟨rfl, (C7_get_global_table_contract stx42 "x").2 rfl⟩⟩

/-- C8: the script-type probe on a global never fails: it returns the
classification of the value's dynamic runtime type — one of integer, number,
string, boolean, table, nil, other, never the probe tag itself — and leaves
the state (hence the stack depth) unchanged. -/
theorem C8_ltype_probe_total (st : LuaState) (name : String) :
    lua_interpreter.get_global_ltype name st =
      (.ok (classify (lookupStr st.globals name)), st) ∧
    classify (lookupStr st.globals name) ≠ types.LTYPE := by
  constructor
  · unfold lua_interpreter.get_global_ltype
    exact get_type_impl_of_push _ st _ (get_by_key_global_push name st)
  · cases hv : lookupStr st.globals name with
    | num n => cases n <;> simp [classify]
    | nil => simp [classify]
    | str s => simp [classify]
    | boolean b => simp [classify]
    | table t => simp [classify]
    | other => simp [classify]

/-- C9: a child handle opened from a live parent by get-field-as-table or
get-index-as-table records a stack depth strictly greater than its parent's
and records the parent's depth as its parent link.  Recorded depths are
immutable, so the strict inequality persists for every ancestor pair for as
long as both handles live. -/
theorem C9_child_deeper (st : LuaState) (p : handle_impl) (name : String) (i : Int) :
    (∀ th st', p.get_field_table name st = (.ok th, st') →
      ∃ c : handle_impl, th.pimpl = some c ∧ p.stack_index < c.stack_index ∧
        c.parent_index = some p.stack_index) ∧
    (∀ th st', p.get_index_table i st = (.ok th, st') →
      ∃ c : handle_impl, th.pimpl = some c ∧ p.stack_index < c.stack_index ∧
        c.parent_index = some p.stack_index) := by
  constructor
  · intro th st' hok
    by_cases hge : st.gettop ≥ p.stack_index
    · by_cases hc : lua_istable (st.fieldAt p.stack_index name) = true
      · rw [get_field_table_of_table p name st hge hc] at hok
        injection hok with h1 h2
        injection h1 with h1
        subst h1
        exact ⟨⟨st.gettop + 1, some p.stack_index⟩, rfl, Nat.lt_succ_of_le hge, rfl⟩
      · rw [get_field_table_of_not_table p name st hge hc] at hok
        simp at hok
    · rw [get_field_table_of_lt p name st (by omega)] at hok
      simp at hok
  · intro th st' hok
    by_cases hge : st.gettop ≥ p.stack_index
    · by_cases hc : lua_istable (st.indexAt p.stack_index i) = true
      · rw [get_index_table_of_table p i st hge hc] at hok
        injection hok with h1 h2
        injection h1 with h1
        subst h1
        exact ⟨⟨st.gettop + 1, some p.stack_index⟩, rfl, Nat.lt_succ_of_le hge, rfl⟩
      · rw [get_index_table_of_not_table p i st hge hc] at hok
        simp at hok
    · rw [get_index_table_of_lt p i st (by omega)] at hok
      simp at hok

theorem C9_child_deeper_witness :
    ((⟨1, none⟩ : handle_impl).get_field_table "u" stOpen =
        (.ok ⟨some ⟨2, some 1⟩⟩, stOpen.push (.table (.mk [] []))) ∧
      (∃ c : handle_impl, (⟨some ⟨2, some 1⟩⟩ : table_handle).pimpl = some c ∧
        (1 : Nat) < c.stack_index ∧ c.parent_index = some 1)) ∧
    ((⟨1, none⟩ : handle_impl).get_index_table 1 stOpen =
        (.ok ⟨some ⟨2, some 1⟩⟩, stOpen.push (.table (.mk [] []))) ∧
      (∃ c : handle_impl, (⟨some ⟨2, some 1⟩⟩ : table_handle).pimpl = some c ∧
        (1 : Nat) < c.stack_index ∧ c.parent_index = some 1)) :=
  ⟨⟨rfl, (C9_child_deeper stOpen ⟨1, none⟩ "u" 1).1 _ _ rfl⟩,
   ⟨rfl, (C9_child_deeper stOpen ⟨1, none⟩ "u" 1).2 _ _ rfl⟩⟩

/-- C10: when at destruction time the current stack depth is strictly below
the handle's recorded depth, the destructor performs no stack operation at
all: the state comes back unchanged, and no error is raised (the destructor
is total and non-throwing by construction, mirroring the C++ destructor that
only ever calls `remove_table` inside the guard). -/
theorem C10_destroy_noop_when_corrupted (st : LuaState) (h : handle_impl)
    (hlt : st.gettop < h.stack_index) : h.destroy st = st := by
  unfold handle_impl.destroy
  rw [if_neg (by omega)]

theorem C10_destroy_noop_when_corrupted_witness :
    initState.gettop < (1 : Nat) ∧
    (⟨1, none⟩ : handle_impl).destroy initState = initState :=
  ⟨by decide, C10_destroy_noop_when_corrupted initState ⟨1, none⟩ (by decide)⟩

end luai
